import Mathlib

/-!
Verification of the access-control and cashflow logic of the
`supabase-backend` repository.

The development shallowly embeds the Deno edge functions
(`supabase/functions/cashflow/index.ts` — the staff-aware version,
`supabase/functions/users/index.ts`, `supabase/functions/admin/index.ts`)
over an explicit database state:

* a request handler that only reads is a function `DB → … → Except HttpError α`;
* a request handler that writes returns the post state explicitly,
  `DB → … → DB × Except HttpError α` (an error response leaves the state
  untouched, exactly as in the code, where every `throw` happens before the
  single store mutation of the handler);
* the PostgREST query chains (`.eq`, `.gte`, `.lte`, `.order`, `.range`,
  `.single`, `.in`) are translated to list filtering, sorting, windowing and
  `find?` over the state;
* the row-level-security policies of the migrations only matter where the
  handlers rely on them (the reference check of `deleteCategory`, the profile
  update of the users function); there they are reflected by the corresponding
  ownership filter.

All handlers below model an authenticated request: `callerId` is the user id
that `requireAuth` resolved from the bearer token.  Ids, dates and timestamps
are strings (ISO dates compare lexicographically exactly as the `DATE` column
and the JS string comparisons in the staff branch do); monetary amounts are
integers, which is faithful for every claim considered here.
-/

namespace SupabaseBackend

/-- A row of `public.users` restricted to the fields the handlers read
(`select('id, email, full_name, is_staff')`). -/
structure Profile where
  id : String
  email : String
  full_name : String
  is_staff : Bool
deriving Repr, DecidableEq

/-- A row of `public.categories`. -/
structure Category where
  id : String
  name : String
  type : String
  color : String
  icon : String
  user_id : String
deriving Repr, DecidableEq

/-- A row of `public.transactions` (with the `is_paid`/`paid_at` columns of
migration `..._add_payment_status`). -/
structure Transaction where
  id : String
  user_id : String
  category_id : Option String
  type : String
  amount : Int
  description : String
  date : String
  tags : List String
  notes : Option String
  is_paid : Bool
  paid_at : Option String
  created_at : String
deriving Repr, DecidableEq

/-- The relational store. -/
structure DB where
  users : List Profile
  categories : List Category
  transactions : List Transaction
deriving Repr, DecidableEq

/-- The `HttpError` class of the edge functions: an HTTP status and the
error-envelope message, which together are the caller-observable failure. -/
structure HttpError where
  status : Nat
  message : String
deriving Repr, DecidableEq

/-- Error produced by a PostgREST `.single()` that did not match exactly one
row; the handlers surface it with status 400. -/
def noRowsError : HttpError := ⟨400, "JSON object requested, multiple (or no) rows returned"⟩

-- ============ generic list helpers (query-chain semantics) ============

/-- Insert into a sorted list, stable version of the `order(...)` clauses. -/
def orderedInsert (le : α → α → Bool) (a : α) : List α → List α
  | [] => [a]
  | b :: l => if le a b then a :: b :: l else b :: orderedInsert le a l

/-- Stable sort implementing the `order(...)` clauses of a query. -/
def sortBy (le : α → α → Bool) : List α → List α
  | [] => []
  | a :: l => orderedInsert le a (sortBy le l)

/-- `.range(offset, offset + limit - 1)`: both ends inclusive, hence a window
of `limit` rows starting at `offset`. -/
def rangeWindow (offset limit : Nat) (l : List α) : List α :=
  (l.drop offset).take limit

theorem mem_orderedInsert {le : α → α → Bool} {a x : α} {l : List α} :
    x ∈ orderedInsert le a l ↔ x = a ∨ x ∈ l := by
  induction l with
  | nil => simp [orderedInsert]
  | cons b t ih =>
    unfold orderedInsert
    by_cases h : le a b
    · simp [h]
    · simp only [Bool.not_eq_true] at h
      simp only [h, Bool.false_eq_true, if_false, List.mem_cons, ih]
      tauto

theorem mem_sortBy {le : α → α → Bool} {x : α} {l : List α} :
    x ∈ sortBy le l ↔ x ∈ l := by
  induction l with
  | nil => simp [sortBy]
  | cons a t ih => simp [sortBy, mem_orderedInsert, ih]

theorem mem_rangeWindow {offset limit : Nat} {x : α} {l : List α} :
    x ∈ rangeWindow offset limit l → x ∈ l := by
  intro h
  exact List.mem_of_mem_drop (List.mem_of_mem_take h)

theorem find?_filter (l : List α) (p q : α → Bool) :
    (l.filter p).find? q = l.find? (fun a => p a && q a) := by
  induction l with
  | nil => rfl
  | cons a t ih =>
    by_cases hp : p a = true
    · by_cases hq : q a = true
      · simp [List.filter_cons, List.find?, hp, hq]
      · simp [List.filter_cons, List.find?, hp, hq, ih]
    · simp [List.filter_cons, List.find?, hp, ih]

theorem find?_congr {l : List α} {p q : α → Bool} (h : ∀ a ∈ l, p a = q a) :
    l.find? p = l.find? q := by
  induction l with
  | nil => rfl
  | cons a t ih =>
    have ha := h a (List.mem_cons_self a t)
    by_cases hq : q a = true
    · simp [List.find?, ha, hq]
    · have hp : p a = false := by rw [ha]; exact eq_false_of_ne_true hq
      have hq' : q a = false := eq_false_of_ne_true hq
      simp [List.find?, hp, hq']
      exact ih (fun b hb => h b (List.mem_cons_of_mem a hb))

-- ============ string ordering ============

/-- Lexicographic comparison of code points, the order JS string comparison
uses and the order `DATE` comparison coincides with on ISO `YYYY-MM-DD`
strings. -/
def charListLt : List Char → List Char → Bool
  | _, [] => false
  | [], _ :: _ => true
  | a :: as, b :: bs =>
    if Nat.blt a.toNat b.toNat then true
    else if Nat.blt b.toNat a.toNat then false
    else charListLt as bs

/-- `a < b` on strings. -/
def strLt (a b : String) : Bool := charListLt a.data b.data

/-- `a <= b` on strings (`gte`/`lte` of the queries are inclusive). -/
def strLe (a b : String) : Bool := !(strLt b a)

-- ============ lookups and orderings used by the handlers ============

/-- `from('users').select(...).eq('id', uid).single()` (first matching row). -/
def findProfile (db : DB) (uid : String) : Option Profile :=
  db.users.find? (fun u => u.id == uid)

/-- The staff check that opens every cashflow read:
`from('users').select('is_staff').eq('id', user.id).single()`. -/
def lookupIsStaff (db : DB) (uid : String) : Except HttpError Bool :=
  match findProfile db uid with
  | none => .error noRowsError
  | some u => .ok u.is_staff

/-- `order('type', asc).order('name', asc)` on categories. -/
def catLe (a b : Category) : Bool :=
  strLt a.type b.type || (a.type == b.type && strLe a.name b.name)

/-- `order('date', desc).order('created_at', desc)` on transactions. -/
def txLe (a b : Transaction) : Bool :=
  strLt b.date a.date || (a.date == b.date && strLe b.created_at a.created_at)

/-- A category row together with the denormalized `user:` annotation the
handlers attach (`undefined` when `users.find` misses). -/
structure CategoryWithUser where
  category : Category
  user : Option Profile
deriving Repr, DecidableEq

/-- A transaction row together with the denormalized `user:` annotation. -/
structure TransactionWithUser where
  transaction : Transaction
  user : Option Profile
deriving Repr, DecidableEq

-- ============ GET /categories ============

/-- `GET /categories` (`handlers.categories`): staff read all categories via
the admin client and join the owner profiles fetched with
`in('id', userIds)`; non-staff read only their own rows and join their own
profile. -/
def categoriesHandler (db : DB) (callerId : String) :
    Except HttpError (List CategoryWithUser) :=
  match lookupIsStaff db callerId with
  | .error e => .error e
  | .ok isStaff =>
    if isStaff then
      let cats := sortBy catLe db.categories
      let userIds := cats.map (·.user_id)
      let fetchedUsers := db.users.filter (fun u => userIds.contains u.id)
      .ok (cats.map (fun c => ⟨c, fetchedUsers.find? (fun u => u.id == c.user_id)⟩))
    else
      let cats := sortBy catLe (db.categories.filter (fun c => c.user_id == callerId))
      match findProfile db callerId with
      | none => .error noRowsError
      | some userInfo => .ok (cats.map (fun c => ⟨c, some userInfo⟩))

-- ============ GET /transactions ============

/-- The query parameters of `GET /transactions`; `limit`/`offset` already
parsed with their defaults (`parseInt(url.searchParams.get('limit') || '50')`,
offset default `0`).  `is_paid` is kept as the raw query string, as the code
compares it with `'true'`. -/
structure ListParams where
  start_date : Option String
  end_date : Option String
  type : Option String
  category_id : Option String
  is_paid : Option String
  limit : Nat
  offset : Nat
deriving Repr, DecidableEq

/-- `GET /transactions` with no query string. -/
def defaultParams : ListParams := ⟨none, none, none, none, none, 50, 0⟩

/-- The per-row filter conditions.  The SQL chain (`gte`/`lte`/`eq`) of the
non-staff branch and the JS `filter` calls of the staff branch test exactly
these conditions. -/
def matchesFilters (p : ListParams) (t : Transaction) : Bool :=
  (match p.start_date with | some sd => strLe sd t.date | none => true) &&
  (match p.end_date with | some ed => strLe t.date ed | none => true) &&
  (match p.type with | some ty => t.type == ty | none => true) &&
  (match p.category_id with | some cid => t.category_id == some cid | none => true) &&
  (match p.is_paid with | some s => t.is_paid == (s == "true") | none => true)

/-- `GET /transactions` (`handlers.transactions`).  Note the asymmetry in the
source: the staff branch runs `order(...).range(...)` on the admin query and
only afterwards applies the filters in JS to the fetched page, while the
non-staff branch puts all filters into the single SQL query, so there they
apply before ordering and the `range` window. -/
def transactionsHandler (db : DB) (callerId : String) (p : ListParams) :
    Except HttpError (List TransactionWithUser) :=
  match lookupIsStaff db callerId with
  | .error e => .error e
  | .ok isStaff =>
    if isStaff then
      let page := rangeWindow p.offset p.limit (sortBy txLe db.transactions)
      let filtered := page.filter (matchesFilters p)
      let userIds := filtered.map (·.user_id)
      let fetchedUsers := db.users.filter (fun u => userIds.contains u.id)
      .ok (filtered.map (fun t => ⟨t, fetchedUsers.find? (fun u => u.id == t.user_id)⟩))
    else
      let rows := rangeWindow p.offset p.limit
        (sortBy txLe ((db.transactions.filter (fun t => t.user_id == callerId)).filter
          (matchesFilters p)))
      match findProfile db callerId with
      | none => .error noRowsError
      | some userInfo => .ok (rows.map (fun t => ⟨t, some userInfo⟩))

-- ============ GET /categories/:id and GET /transactions/:id ============

/-- `GET /categories/:id` (`handlers.getCategory`): staff look the row up via
the admin client, non-staff additionally constrain `user_id`; a miss of
`.single()` is surfaced as 404 `Categoria não encontrada`. -/
def getCategory (db : DB) (callerId : String) (categoryId : String) :
    Except HttpError CategoryWithUser :=
  match lookupIsStaff db callerId with
  | .error e => .error e
  | .ok isStaff =>
    let found := if isStaff then
        db.categories.find? (fun c => c.id == categoryId)
      else
        db.categories.find? (fun c => c.id == categoryId && c.user_id == callerId)
    match found with
    | none => .error ⟨404, "Categoria não encontrada"⟩
    | some category =>
      match findProfile db category.user_id with
      | none => .error noRowsError
      | some userInfo => .ok ⟨category, some userInfo⟩

/-- `GET /transactions/:id` (`handlers.getTransaction`), same shape as
`getCategory` with 404 `Transação não encontrada`. -/
def getTransaction (db : DB) (callerId : String) (transactionId : String) :
    Except HttpError TransactionWithUser :=
  match lookupIsStaff db callerId with
  | .error e => .error e
  | .ok isStaff =>
    let found := if isStaff then
        db.transactions.find? (fun t => t.id == transactionId)
      else
        db.transactions.find? (fun t => t.id == transactionId && t.user_id == callerId)
    match found with
    | none => .error ⟨404, "Transação não encontrada"⟩
    | some transaction =>
      match findProfile db transaction.user_id with
      | none => .error noRowsError
      | some userInfo => .ok ⟨transaction, some userInfo⟩

-- ============ GET /summary ============

/-- The nine fields of the summary response. -/
structure Summary where
  totalIncome : Int
  totalExpenses : Int
  paidIncome : Int
  pendingIncome : Int
  paidExpenses : Int
  pendingExpenses : Int
  balance : Int
  paidBalance : Int
  pendingBalance : Int
deriving Repr, DecidableEq

/-- The accumulator of the `reduce` in `handlers.summary`. -/
structure SummaryAcc where
  totalIncome : Int
  totalExpenses : Int
  paidIncome : Int
  pendingIncome : Int
  paidExpenses : Int
  pendingExpenses : Int
deriving Repr, DecidableEq

/-- One step of the `reduce`. -/
def summaryStep (acc : SummaryAcc) (t : Transaction) : SummaryAcc :=
  if t.type == "income" then
    if t.is_paid then
      { acc with totalIncome := acc.totalIncome + t.amount,
                 paidIncome := acc.paidIncome + t.amount }
    else
      { acc with totalIncome := acc.totalIncome + t.amount,
                 pendingIncome := acc.pendingIncome + t.amount }
  else
    if t.is_paid then
      { acc with totalExpenses := acc.totalExpenses + t.amount,
                 paidExpenses := acc.paidExpenses + t.amount }
    else
      { acc with totalExpenses := acc.totalExpenses + t.amount,
                 pendingExpenses := acc.pendingExpenses + t.amount }

/-- The row set of `GET /summary`:
`from('transactions').select(...).eq('user_id', user.id)` plus the optional
`gte('date', ..)` / `lte('date', ..)` clauses. -/
def summaryRows (db : DB) (callerId : String)
    (start_date end_date : Option String) : List Transaction :=
  db.transactions.filter (fun t =>
    t.user_id == callerId &&
    (match start_date with | some sd => strLe sd t.date | none => true) &&
    (match end_date with | some ed => strLe t.date ed | none => true))

/-- `GET /summary` (`handlers.summary`): always scoped to the caller's rows
(the summary handler has no staff branch), optionally date-filtered, then the
fold above and the three derived balances. -/
def summaryHandler (db : DB) (callerId : String)
    (start_date end_date : Option String) : Summary :=
  let acc := (summaryRows db callerId start_date end_date).foldl summaryStep ⟨0, 0, 0, 0, 0, 0⟩
  { totalIncome := acc.totalIncome
    totalExpenses := acc.totalExpenses
    paidIncome := acc.paidIncome
    pendingIncome := acc.pendingIncome
    paidExpenses := acc.paidExpenses
    pendingExpenses := acc.pendingExpenses
    balance := acc.totalIncome - acc.totalExpenses
    paidBalance := acc.paidIncome - acc.paidExpenses
    pendingBalance := acc.pendingIncome - acc.pendingExpenses }

-- ============ transaction write payloads ============

/-- JS truthiness of an optional string (`undefined`, `''` are falsy). -/
def truthyStr : Option String → Option String
  | some s => if s == "" then none else some s
  | none => none

/-- The JSON body of `POST /transactions` and `PUT /transactions/:id`.
`category_id` and `notes` distinguish an absent field (`none`) from an
explicit `null` (`some none`), because the update handler tests them with
`!== undefined`. -/
structure TransactionPayload where
  type : Option String
  amount : Option Int
  description : Option String
  date : Option String
  category_id : Option (Option String)
  tags : Option (List String)
  notes : Option (Option String)
  is_paid : Option Bool
deriving Repr, DecidableEq

/-- An entirely absent body (`readJSON` of a non-JSON body yields `{}`). -/
def emptyPayload : TransactionPayload := ⟨none, none, none, none, none, none, none, none⟩

/-- The truthy category reference of a payload: the value that triggers the
`if (category_id) { ... }` ownership validation in both create and update. -/
def payloadCategoryRef (p : TransactionPayload) : Option String :=
  match p.category_id with
  | some (some cid) => if cid == "" then none else some cid
  | _ => none

/-- The field names `requireFields({type, amount, description}, ...)` reports
as missing (`undefined`, `null` or `''`). -/
def missingCreateFields (p : TransactionPayload) : List String :=
  (match p.type with | some s => if s == "" then ["type"] else [] | none => ["type"]) ++
  (match p.amount with | some _ => [] | none => ["amount"]) ++
  (match p.description with | some s => if s == "" then ["description"] else [] | none => ["description"])

/-- The 400 error of `requireFields`. -/
def missingFieldsError (missing : List String) : HttpError :=
  ⟨400, "Parâmetros obrigatórios ausentes: " ++ String.intercalate ", " missing⟩

/-- The 400 error for a category reference that is absent or foreign-owned
(the spec's `InvalidReference`). -/
def invalidReferenceError : HttpError :=
  ⟨400, "Categoria não encontrada ou não pertence ao usuário"⟩

/-- The ownership validation
`from('categories').select('id').eq('id', cid).eq('user_id', user.id).single()`. -/
def findOwnCategory (db : DB) (callerId cid : String) : Option Category :=
  db.categories.find? (fun c => c.id == cid && c.user_id == callerId)

/-- `from('transactions').select(...).eq('id', txId).eq('user_id', user.id).single()`. -/
def findOwnTransaction (db : DB) (callerId txId : String) : Option Transaction :=
  db.transactions.find? (fun t => t.id == txId && t.user_id == callerId)

-- ============ POST /transactions ============

/-- `POST /transactions` (`handlers.createTransaction`).  `now` is the
request's `new Date().toISOString()`, `today` its date part, `newId` the id
the store generates.  Field defaults follow the insert literal:
`date || today`, `category_id || null`, `tags || []`, `notes || null`,
`is_paid !== undefined ? is_paid : false`,
`paid_at = is_paid === true ? now : null`. -/
def createTransaction (db : DB) (callerId : String) (p : TransactionPayload)
    (now today newId : String) : DB × Except HttpError Transaction :=
  let missing := missingCreateFields p
  if missing ≠ [] then (db, .error (missingFieldsError missing))
  else
    match payloadCategoryRef p with
    | some cid =>
      if (findOwnCategory db callerId cid).isNone then
        (db, .error invalidReferenceError)
      else
        createInsert db callerId p now today newId
    | none => createInsert db callerId p now today newId
where
  /-- the `insert({...}).select(...).single()` step -/
  createInsert (db : DB) (callerId : String) (p : TransactionPayload)
      (now today newId : String) : DB × Except HttpError Transaction :=
    let t : Transaction :=
      { id := newId
        user_id := callerId
        category_id := payloadCategoryRef p
        type := p.type.getD ""
        amount := p.amount.getD 0
        description := p.description.getD ""
        date := (truthyStr p.date).getD today
        tags := p.tags.getD []
        notes := match p.notes with
          | some (some s) => if s == "" then none else some s
          | _ => none
        is_paid := p.is_paid.getD false
        paid_at := if p.is_paid == some true then some now else none
        created_at := now }
    ({ db with transactions := db.transactions ++ [t] }, .ok t)

-- ============ PUT /transactions/:id ============

/-- The `updateData` record of `handlers.updateTransaction` applied to a row:
`type`/`amount`/`description`/`date` are guarded by JS truthiness
(`if (type) ...`, so `''` and `0` leave the column alone), `category_id` and
`notes` by `!== undefined`, `tags` by truthiness (every array is truthy), and
an explicit `is_paid` rewrites both `is_paid` and `paid_at`. -/
def applyTxUpdate (p : TransactionPayload) (now : String) (t : Transaction) : Transaction :=
  { t with
    type := (truthyStr p.type).getD t.type
    amount := match p.amount with
      | some a => if a == 0 then t.amount else a
      | none => t.amount
    description := (truthyStr p.description).getD t.description
    date := (truthyStr p.date).getD t.date
    category_id := match p.category_id with
      | some v => v
      | none => t.category_id
    tags := p.tags.getD t.tags
    notes := match p.notes with
      | some v => v
      | none => t.notes
    is_paid := p.is_paid.getD t.is_paid
    paid_at := match p.is_paid with
      | some b => if b then some now else none
      | none => t.paid_at }

/-- `PUT /transactions/:id` (`handlers.updateTransaction`).  The category
ownership validation runs first; the update itself is scoped by
`eq('id', txId).eq('user_id', user.id)` and its `.single()` fails with 400
when no row matched. -/
def updateTransaction (db : DB) (callerId txId : String) (p : TransactionPayload)
    (now : String) : DB × Except HttpError Transaction :=
  match payloadCategoryRef p with
  | some cid =>
    if (findOwnCategory db callerId cid).isNone then
      (db, .error invalidReferenceError)
    else
      updateApply db callerId txId p now
  | none => updateApply db callerId txId p now
where
  /-- the `update(updateData).eq(..).eq(..).select(..).single()` step -/
  updateApply (db : DB) (callerId txId : String) (p : TransactionPayload)
      (now : String) : DB × Except HttpError Transaction :=
    match findOwnTransaction db callerId txId with
    | none => (db, .error noRowsError)
    | some t0 =>
      ({ db with transactions := db.transactions.map (fun t =>
          if t.id == txId && t.user_id == callerId then applyTxUpdate p now t else t) },
       .ok (applyTxUpdate p now t0))

-- ============ PATCH /transactions/:id/pay | /unpay | /toggle-payment ============

/-- Replace the caller's row `txId` by `f` of it, as
`update(...).eq('id', txId).eq('user_id', callerId)` does. -/
def updateOwnTransaction (db : DB) (callerId txId : String)
    (f : Transaction → Transaction) : DB :=
  { db with transactions := db.transactions.map (fun t =>
      if t.id == txId && t.user_id == callerId then f t else t) }

/-- `PATCH /transactions/:id/pay` (`handlers.markAsPaid`): 404 when the
caller owns no such row, 400 (the spec's `Conflict`) when it is already paid,
otherwise set `is_paid = true`, `paid_at = now`. -/
def markAsPaid (db : DB) (callerId txId now : String) : DB × Except HttpError Transaction :=
  match findOwnTransaction db callerId txId with
  | none => (db, .error ⟨404, "Transação não encontrada"⟩)
  | some t =>
    if t.is_paid then
      (db, .error ⟨400, "Transação já está marcada como paga"⟩)
    else
      (updateOwnTransaction db callerId txId (fun t => { t with is_paid := true, paid_at := some now }),
       .ok { t with is_paid := true, paid_at := some now })

/-- `PATCH /transactions/:id/unpay` (`handlers.markAsUnpaid`): 404 when the
caller owns no such row, 400 (`Conflict`) when it is already unpaid,
otherwise set `is_paid = false`, `paid_at = null`. -/
def markAsUnpaid (db : DB) (callerId txId : String) : DB × Except HttpError Transaction :=
  match findOwnTransaction db callerId txId with
  | none => (db, .error ⟨404, "Transação não encontrada"⟩)
  | some t =>
    if !t.is_paid then
      (db, .error ⟨400, "Transação já está marcada como não paga"⟩)
    else
      (updateOwnTransaction db callerId txId (fun t => { t with is_paid := false, paid_at := none }),
       .ok { t with is_paid := false, paid_at := none })

/-- `PATCH /transactions/:id/toggle-payment` (`handlers.togglePaymentStatus`):
no precondition beyond existence/ownership; flips `is_paid` and sets or
clears `paid_at` with it. -/
def togglePaymentStatus (db : DB) (callerId txId now : String) :
    DB × Except HttpError Transaction :=
  match findOwnTransaction db callerId txId with
  | none => (db, .error ⟨404, "Transação não encontrada"⟩)
  | some t =>
    let newStatus := !t.is_paid
    let f := fun (x : Transaction) =>
      { x with is_paid := newStatus, paid_at := if newStatus then some now else none }
    (updateOwnTransaction db callerId txId f, .ok (f t))

-- ============ DELETE /categories/:id ============

/-- `DELETE /categories/:id` (`handlers.deleteCategory`).  The reference
check `from('transactions').select('id').eq('category_id', catId).limit(1)`
runs on the authed client, so row-level security restricts it to the caller's
own transactions; the delete is scoped by `eq('id', ..).eq('user_id', ..)`
and the store's `ON DELETE SET NULL` clears surviving references. -/
def deleteCategory (db : DB) (callerId catId : String) : DB × Except HttpError String :=
  match db.categories.find? (fun c => c.id == catId && c.user_id == callerId) with
  | none => (db, .error ⟨404, "Categoria não encontrada"⟩)
  | some category =>
    if db.transactions.any (fun t => t.user_id == callerId && t.category_id == some catId) then
      (db, .error ⟨400, "Não é possível deletar categoria que possui transações associadas"⟩)
    else
      ({ db with
          categories := db.categories.filter (fun c => !(c.id == catId && c.user_id == callerId))
          transactions := db.transactions.map (fun t =>
            if t.category_id == some catId then { t with category_id := none } else t) },
       .ok ("Categoria \x22" ++ category.name ++ "\x22 deletada com sucesso"))

-- ============ PUT /users and POST /admin (change_staff) ============

/-- The JSON body of `PUT /users`: the profile fields the model tracks, plus
the optional target `id` and an `is_staff` a caller may try to smuggle in. -/
structure UserUpdateBody where
  id : Option String
  email : Option String
  full_name : Option String
  is_staff : Option Bool
deriving Repr, DecidableEq

/-- `const \x7b is_staff, ...safeUpdateData \x7d = updateBody` followed by
`.update(safeUpdateData)`: every field of the body except `is_staff` is
written to the row. -/
def applyProfileUpdate (body : UserUpdateBody) (u : Profile) : Profile :=
  { u with
    email := body.email.getD u.email
    full_name := body.full_name.getD u.full_name }

/-- `PUT /users` (the `PUT` case of `supabase/functions/users/index.ts`).
A non-staff caller naming a different `id` gets 403; otherwise the update
targets `updateBody.id || user.id` through the authed client, whose
row-level-security policy (`auth.uid() = id`, migration
`..._fix_users_policy_recursion`) lets it touch only the caller's own row;
`.single()` on zero updated rows yields 400. -/
def usersPut (db : DB) (callerId : String) (body : UserUpdateBody) :
    DB × Except HttpError Profile :=
  match findProfile db callerId with
  | none => (db, .error noRowsError)
  | some caller =>
    let canEditOthers := caller.is_staff
    if !canEditOthers && (match body.id with | some tid => !(tid == callerId) | none => false) then
      (db, .error ⟨403, "Insufficient permissions"⟩)
    else
      let targetId := (truthyStr body.id).getD callerId
      let db' := { db with users := db.users.map (fun u =>
        if u.id == targetId && u.id == callerId then applyProfileUpdate body u else u) }
      match db'.users.find? (fun u => u.id == targetId && u.id == callerId) with
      | none => (db', .error noRowsError)
      | some u => (db', .ok u)

/-- `POST /admin` with `action=change_staff`
(`supabase/functions/admin/index.ts`): 403 unless the caller's own profile
has `is_staff = true`; then the admin client sets the target's `is_staff`. -/
def changeStaff (db : DB) (callerId targetUserId : String) (is_staff : Bool) :
    DB × Except HttpError Profile :=
  match findProfile db callerId with
  | none => (db, .error noRowsError)
  | some caller =>
    if !caller.is_staff then
      (db, .error ⟨403, "Forbidden (somente staff)"⟩)
    else
      let db' := { db with users := db.users.map (fun u =>
        if u.id == targetUserId then { u with is_staff := is_staff } else u) }
      match db'.users.find? (fun u => u.id == targetUserId) with
      | none => (db', .error noRowsError)
      | some u => (db', .ok u)

-- ============ concrete fixtures ============

/-- A non-staff user. -/
def alice : Profile := ⟨"alice", "alice@example.com", "Alice", false⟩

/-- Another non-staff user. -/
def bob : Profile := ⟨"bob", "bob@example.com", "Bob", false⟩

/-- A staff user. -/
def stella : Profile := ⟨"stella", "stella@example.com", "Stella", true⟩

/-- A category owned by `alice`. -/
def catFood : Category := ⟨"cat-food", "Food", "expense", "#EF4444", "A", "alice"⟩

/-- A category owned by `bob`. -/
def catSalary : Category := ⟨"cat-salary", "Salario", "income", "#10B981", "B", "bob"⟩

/-- A paid income of 100 owned by `alice`. -/
def txSalary : Transaction :=
  ⟨"tx-salary", "alice", none, "income", 100, "salary", "2024-03-01", [], none,
   true, some "2024-03-01T12:00:00Z", "2024-03-01T08:00:00Z"⟩

/-- An unpaid expense of 40 owned by `alice`, referencing `catFood`. -/
def txGroceries : Transaction :=
  ⟨"tx-groceries", "alice", some "cat-food", "expense", 40, "groceries", "2024-03-02", [], none,
   false, none, "2024-03-02T08:00:00Z"⟩

/-- An unpaid expense owned by `bob`. -/
def txBob : Transaction :=
  ⟨"tx-bob", "bob", none, "expense", 7, "bus", "2024-03-03", [], none,
   false, none, "2024-03-03T08:00:00Z"⟩

/-- A small three-user store. -/
def sampleDB : DB := ⟨[alice, bob, stella], [catFood, catSalary], [txSalary, txGroceries, txBob]⟩

-- ============ C7: summary ============

/-- The sum of the amounts of the rows satisfying `p`. -/
def sumAmounts (ts : List Transaction) (p : Transaction → Bool) : Int :=
  ((ts.filter p).map (·.amount)).sum

theorem summaryStep_fold_spec (ts : List Transaction) (acc : SummaryAcc) :
    (ts.foldl summaryStep acc).totalIncome
        = acc.totalIncome + sumAmounts ts (fun t => t.type == "income") ∧
    (ts.foldl summaryStep acc).totalExpenses
        = acc.totalExpenses + sumAmounts ts (fun t => !(t.type == "income")) ∧
    (ts.foldl summaryStep acc).paidIncome
        = acc.paidIncome + sumAmounts ts (fun t => t.type == "income" && t.is_paid) ∧
    (ts.foldl summaryStep acc).pendingIncome
        = acc.pendingIncome + sumAmounts ts (fun t => t.type == "income" && !t.is_paid) ∧
    (ts.foldl summaryStep acc).paidExpenses
        = acc.paidExpenses + sumAmounts ts (fun t => !(t.type == "income") && t.is_paid) ∧
    (ts.foldl summaryStep acc).pendingExpenses
        = acc.pendingExpenses + sumAmounts ts (fun t => !(t.type == "income") && !t.is_paid) := by
  induction ts generalizing acc with
  | nil => simp [sumAmounts]
  | cons t rest ih =>
    obtain ⟨i1, i2, i3, i4, i5, i6⟩ := ih (summaryStep acc t)
    refine ⟨?_, ?_, ?_, ?_, ?_, ?_⟩
    · rw [List.foldl_cons, i1]
      by_cases hty : t.type == "income" <;> by_cases hp : t.is_paid <;>
        simp [summaryStep, sumAmounts, List.filter_cons, hty, hp] <;> ring
    · rw [List.foldl_cons, i2]
      by_cases hty : t.type == "income" <;> by_cases hp : t.is_paid <;>
        simp [summaryStep, sumAmounts, List.filter_cons, hty, hp] <;> ring
    · rw [List.foldl_cons, i3]
      by_cases hty : t.type == "income" <;> by_cases hp : t.is_paid <;>
        simp [summaryStep, sumAmounts, List.filter_cons, hty, hp] <;> ring
    · rw [List.foldl_cons, i4]
      by_cases hty : t.type == "income" <;> by_cases hp : t.is_paid <;>
        simp [summaryStep, sumAmounts, List.filter_cons, hty, hp] <;> ring
    · rw [List.foldl_cons, i5]
      by_cases hty : t.type == "income" <;> by_cases hp : t.is_paid <;>
        simp [summaryStep, sumAmounts, List.filter_cons, hty, hp] <;> ring
    · rw [List.foldl_cons, i6]
      by_cases hty : t.type == "income" <;> by_cases hp : t.is_paid <;>
        simp [summaryStep, sumAmounts, List.filter_cons, hty, hp] <;> ring

/-- C7: the summary is a pure function of the caller's (optionally
date-filtered) transaction set: `totalIncome`/`totalExpenses` are the sums of
the income resp. expense amounts, the paid/pending fields split them by
`is_paid`, `balance = totalIncome - totalExpenses`,
`paidBalance = paidIncome - paidExpenses`,
`pendingBalance = pendingIncome - pendingExpenses`; and over the two
transactions `[(income, 100, paid), (expense, 40, unpaid)]` it yields
`totalIncome = 100`, `totalExpenses = 40`, `balance = 60`,
`paidBalance = 100`, `pendingBalance = -40`.  (The hypothesis is the
`CHECK (type IN ('income', 'expense'))` constraint of the schema; the code
counts any non-income row as an expense.) -/
theorem C7_summary_pure_function (db : DB) (callerId : String) (sd ed : Option String)
    (hty : ∀ t ∈ db.transactions, t.type = "income" ∨ t.type = "expense") :
    (summaryHandler db callerId sd ed).totalIncome
        = sumAmounts (summaryRows db callerId sd ed) (fun t => t.type == "income") ∧
    (summaryHandler db callerId sd ed).totalExpenses
        = sumAmounts (summaryRows db callerId sd ed) (fun t => t.type == "expense") ∧
    (summaryHandler db callerId sd ed).paidIncome
        = sumAmounts (summaryRows db callerId sd ed) (fun t => t.type == "income" && t.is_paid) ∧
    (summaryHandler db callerId sd ed).pendingIncome
        = sumAmounts (summaryRows db callerId sd ed) (fun t => t.type == "income" && !t.is_paid) ∧
    (summaryHandler db callerId sd ed).paidExpenses
        = sumAmounts (summaryRows db callerId sd ed) (fun t => t.type == "expense" && t.is_paid) ∧
    (summaryHandler db callerId sd ed).pendingExpenses
        = sumAmounts (summaryRows db callerId sd ed) (fun t => t.type == "expense" && !t.is_paid) ∧
    (summaryHandler db callerId sd ed).balance
        = (summaryHandler db callerId sd ed).totalIncome
          - (summaryHandler db callerId sd ed).totalExpenses ∧
    (summaryHandler db callerId sd ed).paidBalance
        = (summaryHandler db callerId sd ed).paidIncome
          - (summaryHandler db callerId sd ed).paidExpenses ∧
    (summaryHandler db callerId sd ed).pendingBalance
        = (summaryHandler db callerId sd ed).pendingIncome
          - (summaryHandler db callerId sd ed).pendingExpenses ∧
    summaryHandler sampleDB "alice" none none = ⟨100, 40, 100, 0, 0, 40, 60, 100, -40⟩ := by
  have hsub : ∀ t ∈ summaryRows db callerId sd ed, t.type = "income" ∨ t.type = "expense" := by
    intro t ht
    exact hty t (List.mem_of_mem_filter ht)
  have hconv : ∀ q : Transaction → Bool,
      sumAmounts (summaryRows db callerId sd ed) (fun t => !(t.type == "income") && q t)
        = sumAmounts (summaryRows db callerId sd ed) (fun t => (t.type == "expense") && q t) := by
    intro q
    unfold sumAmounts
    congr 2
    apply List.filter_congr
    intro t ht
    rcases hsub t ht with h | h <;> simp [h]
  have hconv0 :
      sumAmounts (summaryRows db callerId sd ed) (fun t => !(t.type == "income"))
        = sumAmounts (summaryRows db callerId sd ed) (fun t => t.type == "expense") := by
    unfold sumAmounts
    congr 2
    apply List.filter_congr
    intro t ht
    rcases hsub t ht with h | h <;> simp [h]
  obtain ⟨e1, e2, e3, e4, e5, e6⟩ :=
    summaryStep_fold_spec (summaryRows db callerId sd ed) ⟨0, 0, 0, 0, 0, 0⟩
  refine ⟨?_, ?_, ?_, ?_, ?_, ?_, ?_, ?_, ?_, by decide⟩
  · simpa [summaryHandler] using e1
  · rw [← hconv0]
    simpa [summaryHandler] using e2
  · simpa [summaryHandler] using e3
  · simpa [summaryHandler] using e4
  · rw [← hconv fun t => t.is_paid]
    simpa [summaryHandler] using e5
  · rw [← hconv fun t => !t.is_paid]
    simpa [summaryHandler] using e6
  · simp [summaryHandler]
  · simp [summaryHandler]
  · simp [summaryHandler]

/-- Witness for C7: the claim's concrete example, obtained by instantiating
the theorem at the sample store. -/
theorem C7_summary_pure_function_witness :
    summaryHandler sampleDB "alice" none none = ⟨100, 40, 100, 0, 0, 40, 60, 100, -40⟩ :=
  (C7_summary_pure_function sampleDB "alice" none none
    (by decide)).2.2.2.2.2.2.2.2.2

-- ============ C3: mark-paid / mark-unpaid / toggle ============

/-- C3: on a transaction owned by the caller, mark-paid fails with the
Conflict error and leaves the store (hence `paid_at`) unchanged when the
transaction is already paid, and otherwise sets `is_paid = true` and
`paid_at = now`; mark-unpaid fails with Conflict when already unpaid and
otherwise sets `is_paid = false`, `paid_at = null`; toggle has no
precondition and unconditionally flips `is_paid`, setting or clearing
`paid_at` accordingly.  (`Conflict` is surfaced as status 400 with the
precondition message, per the error taxonomy of the code.) -/
theorem C3_payment_transitions (db : DB) (callerId txId now : String)
    (t : Transaction) (hfind : findOwnTransaction db callerId txId = some t) :
    (t.is_paid = true →
      markAsPaid db callerId txId now
        = (db, .error ⟨400, "Transação já está marcada como paga"⟩)) ∧
    (t.is_paid = false →
      markAsPaid db callerId txId now
        = (updateOwnTransaction db callerId txId
             (fun x => { x with is_paid := true, paid_at := some now }),
           .ok { t with is_paid := true, paid_at := some now })) ∧
    (t.is_paid = false →
      markAsUnpaid db callerId txId
        = (db, .error ⟨400, "Transação já está marcada como não paga"⟩)) ∧
    (t.is_paid = true →
      markAsUnpaid db callerId txId
        = (updateOwnTransaction db callerId txId
             (fun x => { x with is_paid := false, paid_at := none }),
           .ok { t with is_paid := false, paid_at := none })) ∧
    togglePaymentStatus db callerId txId now
      = (updateOwnTransaction db callerId txId
           (fun x => { x with is_paid := !t.is_paid,
                              paid_at := if !t.is_paid then some now else none }),
         .ok { t with is_paid := !t.is_paid,
                      paid_at := if !t.is_paid then some now else none }) := by
  refine ⟨?_, ?_, ?_, ?_, ?_⟩
  · intro h
    simp [markAsPaid, hfind, h]
  · intro h
    simp [markAsPaid, hfind, h]
  · intro h
    simp [markAsUnpaid, hfind, h]
  · intro h
    simp [markAsUnpaid, hfind, h]
  · simp [togglePaymentStatus, hfind]

/-- Witness for C3: mark-paid on the already-paid sample transaction returns
the Conflict error and leaves the store unchanged. -/
theorem C3_payment_transitions_witness :
    markAsPaid sampleDB "alice" "tx-salary" "2024-04-01T00:00:00Z"
      = (sampleDB, .error ⟨400, "Transação já está marcada como paga"⟩) :=
  (C3_payment_transitions sampleDB "alice" "tx-salary" "2024-04-01T00:00:00Z"
    txSalary (by rfl)).1 (by rfl)

-- ============ C2: is_paid / paid_at coupling ============

/-- The data invariant `is_paid = true ↔ paid_at ≠ null` on one row. -/
def paidAtConsistent (t : Transaction) : Bool := t.is_paid == t.paid_at.isSome

/-- The invariant over the whole store. -/
def dbPaidConsistent (db : DB) : Bool := db.transactions.all paidAtConsistent

theorem paidAtConsistent_applyTxUpdate (p : TransactionPayload) (now : String)
    (t : Transaction) (h : paidAtConsistent t = true) :
    paidAtConsistent (applyTxUpdate p now t) = true := by
  cases hp : p.is_paid with
  | none => simpa [applyTxUpdate, paidAtConsistent, hp] using h
  | some b => cases b <;> simp [applyTxUpdate, paidAtConsistent, hp]

theorem all_map_ite {l : List α} {p : α → Bool} {f : α → α} {c : α → Bool}
    (h : l.all p = true) (hf : ∀ a, p a = true → p (f a) = true) :
    (l.map (fun a => if c a then f a else a)).all p = true := by
  rw [List.all_eq_true] at h ⊢
  intro x hx
  rw [List.mem_map] at hx
  obtain ⟨a, ha, rfl⟩ := hx
  by_cases hc : c a = true
  · simpa [hc] using hf a (h a ha)
  · simpa [hc] using h a ha

/-- C2 (amended): every write — create, update, mark-paid, mark-unpaid,
toggle — preserves the invariant `is_paid = true ↔ paid_at ≠ null` on every
stored row; an update whose payload carries `is_paid` sets `paid_at = now`
when the new value is true and clears it when false, and an update whose
payload omits `is_paid` leaves both fields untouched.  (The original claim's
"`paid_at` is set exactly when `is_paid` transitions to true" fails: see the
counterexample, where an update re-stamps `paid_at` without a transition.) -/
theorem C2_paid_at_invariant (db : DB) (callerId txId now today newId : String)
    (p : TransactionPayload) (t : Transaction)
    (h : dbPaidConsistent db = true) :
    dbPaidConsistent (createTransaction db callerId p now today newId).1 = true ∧
    dbPaidConsistent (updateTransaction db callerId txId p now).1 = true ∧
    dbPaidConsistent (markAsPaid db callerId txId now).1 = true ∧
    dbPaidConsistent (markAsUnpaid db callerId txId).1 = true ∧
    dbPaidConsistent (togglePaymentStatus db callerId txId now).1 = true ∧
    (p.is_paid = none →
      (applyTxUpdate p now t).is_paid = t.is_paid ∧
      (applyTxUpdate p now t).paid_at = t.paid_at) ∧
    (∀ b, p.is_paid = some b →
      (applyTxUpdate p now t).is_paid = b ∧
      (applyTxUpdate p now t).paid_at = if b then some now else none) := by
  refine ⟨?_, ?_, ?_, ?_, ?_, ?_, ?_⟩
  · unfold createTransaction
    by_cases hm : missingCreateFields p ≠ []
    · simpa [hm] using h
    · cases hcid : payloadCategoryRef p with
      | some cid =>
        by_cases hf : (findOwnCategory db callerId cid).isNone
        · simpa [hm, hcid, hf] using h
        · have : dbPaidConsistent (createTransaction.createInsert db callerId p now today newId).1 = true := by
            unfold createTransaction.createInsert dbPaidConsistent
            rw [List.all_append, Bool.and_eq_true]
            refine And.intro h ?_
            cases hip : p.is_paid with
            | none => simp [paidAtConsistent, hip]
            | some b => cases b <;> simp [paidAtConsistent, hip]
          simpa [hm, hcid, hf] using this
      | none =>
        have : dbPaidConsistent (createTransaction.createInsert db callerId p now today newId).1 = true := by
          unfold createTransaction.createInsert dbPaidConsistent
          rw [List.all_append, Bool.and_eq_true]
          refine And.intro h ?_
          cases hip : p.is_paid with
          | none => simp [paidAtConsistent, hip]
          | some b => cases b <;> simp [paidAtConsistent, hip]
        simpa [hm, hcid] using this
  · have happ : dbPaidConsistent (updateTransaction.updateApply db callerId txId p now).1 = true := by
      unfold updateTransaction.updateApply
      cases hfind : findOwnTransaction db callerId txId with
      | none => simpa using h
      | some t0 =>
        simp only [dbPaidConsistent] at h ⊢
        exact all_map_ite h (paidAtConsistent_applyTxUpdate p now)
    unfold updateTransaction
    cases hcid : payloadCategoryRef p with
    | some cid =>
      by_cases hf : (findOwnCategory db callerId cid).isNone
      · simpa [hcid, hf] using h
      · simpa [hcid, hf] using happ
    | none => simpa [hcid] using happ
  · unfold markAsPaid
    cases hfind : findOwnTransaction db callerId txId with
    | none => simpa using h
    | some t0 =>
      by_cases hip : t0.is_paid
      · simpa [hip] using h
      · simp only [dbPaidConsistent, updateOwnTransaction, hip, Bool.false_eq_true,
          if_false] at h ⊢
        exact all_map_ite h (fun a _ => by simp [paidAtConsistent])
  · unfold markAsUnpaid
    cases hfind : findOwnTransaction db callerId txId with
    | none => simpa using h
    | some t0 =>
      by_cases hip : t0.is_paid
      · simp only [dbPaidConsistent, updateOwnTransaction, hip] at h ⊢
        exact all_map_ite h (fun a _ => by simp [paidAtConsistent])
      · simpa [hip] using h
  · unfold togglePaymentStatus
    cases hfind : findOwnTransaction db callerId txId with
    | none => simpa using h
    | some t0 =>
      simp only [dbPaidConsistent, updateOwnTransaction] at h ⊢
      refine all_map_ite h (fun a _ => ?_)
      by_cases hip : t0.is_paid <;> simp [paidAtConsistent, hip]
  · intro hip
    simp [applyTxUpdate, hip]
  · intro b hip
    simp [applyTxUpdate, hip]

/-- Witness for C2's amended theorem at the sample store. -/
theorem C2_paid_at_invariant_witness :
    dbPaidConsistent (markAsPaid sampleDB "alice" "tx-groceries" "2024-04-01T00:00:00Z").1 = true :=
  (C2_paid_at_invariant sampleDB "alice" "tx-groceries" "2024-04-01T00:00:00Z"
    "2024-04-01" "tx-new" emptyPayload txSalary (by decide)).2.2.1

/-- Counterexample for C2 as stated: updating the already-paid sample
transaction with a payload carrying `is_paid: true` re-stamps `paid_at` to
the new timestamp although `is_paid` makes no transition (it stays `true`),
so `paid_at` is not set "exactly when `is_paid` transitions to true". -/
theorem C2_paid_at_counterexample :
    txSalary.is_paid = true ∧
    (updateTransaction sampleDB "alice" "tx-salary"
        { emptyPayload with is_paid := some true } "2024-06-01T00:00:00Z").2
      = .ok { txSalary with paid_at := some "2024-06-01T00:00:00Z" } ∧
    (updateTransaction sampleDB "alice" "tx-salary"
        { emptyPayload with is_paid := some true } "2024-06-01T00:00:00Z").1.transactions
      = [{ txSalary with paid_at := some "2024-06-01T00:00:00Z" }, txGroceries, txBob] ∧
    some "2024-06-01T00:00:00Z" ≠ txSalary.paid_at :=
  ⟨by rfl, by rfl, by rfl, by decide⟩

-- ============ C5: category delete guard ============

/-- C5: for a category owned by the caller, delete fails with the Conflict
error and leaves the store unchanged while some transaction references the
category; with no referencing transaction it succeeds and the category is
gone; and after removing all referencing transactions a retried delete
succeeds.  The second hypothesis is the data-model invariant that a
transaction's category reference belongs to the transaction's owner (§3 of
the spec; enforced on every write by the ownership validation): under it the
row-level-security-scoped reference check of the code sees every referencing
transaction. -/
theorem C5_delete_category_guard (db : DB) (callerId catId : String) (category : Category)
    (hfind : db.categories.find? (fun c => c.id == catId && c.user_id == callerId)
      = some category)
    (hown : db.transactions.all
      (fun t => !(t.category_id == some catId) || t.user_id == callerId) = true) :
    (db.transactions.any (fun t => t.category_id == some catId) = true →
      deleteCategory db callerId catId
        = (db, .error ⟨400, "Não é possível deletar categoria que possui transações associadas"⟩)) ∧
    (db.transactions.any (fun t => t.category_id == some catId) = false →
      deleteCategory db callerId catId
        = ({ db with
              categories := db.categories.filter
                (fun c => !(c.id == catId && c.user_id == callerId))
              transactions := db.transactions.map (fun t =>
                if t.category_id == some catId then { t with category_id := none } else t) },
           .ok ("Categoria \x22" ++ category.name ++ "\x22 deletada com sucesso")) ∧
      category ∉ (deleteCategory db callerId catId).1.categories) ∧
    ((deleteCategory
        { db with transactions :=
            db.transactions.filter (fun t => !(t.category_id == some catId)) }
        callerId catId).2
      = .ok ("Categoria \x22" ++ category.name ++ "\x22 deletada com sucesso")) := by
  have hp := List.find?_some hfind
  refine ⟨?_, ?_, ?_⟩
  · intro hany
    have hvis : db.transactions.any
        (fun t => t.user_id == callerId && t.category_id == some catId) = true := by
      rw [List.any_eq_true] at hany ⊢
      obtain ⟨t, ht, hc⟩ := hany
      rw [List.all_eq_true] at hown
      have h1 := hown t ht
      rw [hc] at h1
      simp only [Bool.not_true, Bool.false_or] at h1
      refine ⟨t, ht, ?_⟩
      rw [h1, hc]
      rfl
    simp [deleteCategory, hfind, hvis]
  · intro hnone
    have hvis : db.transactions.any
        (fun t => t.user_id == callerId && t.category_id == some catId) = false := by
      rw [List.any_eq_false] at hnone ⊢
      intro t ht
      have := hnone t ht
      simp only [Bool.and_eq_true, not_and]
      intro _
      exact this
    have heq : deleteCategory db callerId catId
        = ({ db with
              categories := db.categories.filter
                (fun c => !(c.id == catId && c.user_id == callerId))
              transactions := db.transactions.map (fun t =>
                if t.category_id == some catId then { t with category_id := none } else t) },
           .ok ("Categoria \x22" ++ category.name ++ "\x22 deletada com sucesso")) := by
      simp [deleteCategory, hfind, hvis]
    refine ⟨heq, ?_⟩
    rw [heq]
    intro hmem
    rw [List.mem_filter] at hmem
    rw [hp] at hmem
    simp at hmem
  · have hfind' : (db.transactions.filter
        (fun t => !(t.category_id == some catId))).any
        (fun t => t.user_id == callerId && t.category_id == some catId) = false := by
      rw [List.any_eq_false]
      intro t ht
      rw [List.mem_filter] at ht
      simp only [Bool.and_eq_true, not_and]
      intro _
      have := ht.2
      simp only [Bool.not_eq_true'] at this
      exact ne_true_of_eq_false this
    simp [deleteCategory, hfind, hfind']

/-- Witness for C5: deleting the sample category that `tx-groceries` still
references is blocked with the Conflict error, and the retried delete after
the reference is gone succeeds. -/
theorem C5_delete_category_guard_witness :
    deleteCategory sampleDB "alice" "cat-food"
      = (sampleDB, .error ⟨400, "Não é possível deletar categoria que possui transações associadas"⟩) ∧
    (deleteCategory
        { sampleDB with transactions :=
            sampleDB.transactions.filter (fun t => !(t.category_id == some "cat-food")) }
        "alice" "cat-food").2
      = .ok ("Categoria \x22Food\x22 deletada com sucesso") :=
  ⟨(C5_delete_category_guard sampleDB "alice" "cat-food" catFood (by rfl) (by decide)).1
      (by decide),
   (C5_delete_category_guard sampleDB "alice" "cat-food" catFood (by rfl) (by decide)).2.2⟩

-- ============ C6: cross-owner category reference ============

/-- C6 (amended): a transaction create or update whose payload carries a
(truthy) `category_id` that names no category owned by the caller fails with
the `InvalidReference` error and leaves the store unchanged — for update
unconditionally, for create provided the payload passes the required-field
validation (`type`, `amount`, `description`), which the code runs first.
(The original claim, quantifying over *every* payload, fails for create: see
the counterexample, where missing required fields pre-empt the reference
check.) -/
theorem C6_invalid_reference (db : DB) (callerId txId now today newId : String)
    (p : TransactionPayload) (cid : String)
    (hcid : payloadCategoryRef p = some cid)
    (hnone : findOwnCategory db callerId cid = none) :
    (missingCreateFields p = [] →
      createTransaction db callerId p now today newId = (db, .error invalidReferenceError)) ∧
    updateTransaction db callerId txId p now = (db, .error invalidReferenceError) := by
  constructor
  · intro hfields
    simp [createTransaction, hfields, hcid, hnone]
  · simp [updateTransaction, hcid, hnone]

/-- Witness for C6: `alice` referencing `bob`'s category in a complete
create payload, and in an update payload that carries *only* the foreign
`category_id` (the update conjunct needs no required fields). -/
theorem C6_invalid_reference_witness :
    createTransaction sampleDB "alice"
        { emptyPayload with type := some "expense", amount := some 5,
                            description := some "dinner",
                            category_id := some (some "cat-salary") }
        "2024-05-01T00:00:00Z" "2024-05-01" "tx-new"
      = (sampleDB, .error invalidReferenceError) ∧
    updateTransaction sampleDB "alice" "tx-groceries"
        { emptyPayload with category_id := some (some "cat-salary") }
        "2024-05-01T00:00:00Z"
      = (sampleDB, .error invalidReferenceError) :=
  ⟨(C6_invalid_reference sampleDB "alice" "tx-groceries" "2024-05-01T00:00:00Z"
      "2024-05-01" "tx-new"
      { emptyPayload with type := some "expense", amount := some 5,
                          description := some "dinner",
                          category_id := some (some "cat-salary") }
      "cat-salary" (by rfl) (by rfl)).1 (by rfl),
   (C6_invalid_reference sampleDB "alice" "tx-groceries" "2024-05-01T00:00:00Z"
      "2024-05-01" "tx-new"
      { emptyPayload with category_id := some (some "cat-salary") }
      "cat-salary" (by rfl) (by rfl)).2⟩

/-- Counterexample for C6 as stated: a create payload that names `bob`'s
category (so the reference is foreign-owned for `alice`) but omits the
required fields fails with the missing-fields validation error, not with
`InvalidReference` — the required-field check runs before the reference
check. -/
theorem C6_invalid_reference_counterexample :
    payloadCategoryRef { emptyPayload with category_id := some (some "cat-salary") }
      = some "cat-salary" ∧
    findOwnCategory sampleDB "alice" "cat-salary" = none ∧
    (createTransaction sampleDB "alice"
        { emptyPayload with category_id := some (some "cat-salary") }
        "2024-05-01T00:00:00Z" "2024-05-01" "tx-new").2
      = .error (missingFieldsError ["type", "amount", "description"]) ∧
    missingFieldsError ["type", "amount", "description"] ≠ invalidReferenceError :=
  ⟨by rfl, by rfl, by rfl, by decide⟩

-- ============ C9: NotFound indistinguishability ============

/-- C9: for a non-staff caller, get-by-id on a category or transaction the
caller does not own produces exactly the same observable response (status
404 with the same error body) whether the row belongs to another user
(`db1`) or does not exist at all (`db2`): the two runs are
indistinguishable. -/
theorem C9_notfound_indistinguishable (db1 db2 : DB) (callerId catId txId : String)
    (caller1 caller2 : Profile)
    (h1 : findProfile db1 callerId = some caller1) (hs1 : caller1.is_staff = false)
    (h2 : findProfile db2 callerId = some caller2) (hs2 : caller2.is_staff = false)
    (hc1 : db1.categories.all (fun c => !(c.id == catId && c.user_id == callerId)) = true)
    (hc2 : db2.categories.all (fun c => !(c.id == catId)) = true)
    (ht1 : db1.transactions.all (fun t => !(t.id == txId && t.user_id == callerId)) = true)
    (ht2 : db2.transactions.all (fun t => !(t.id == txId)) = true) :
    getCategory db1 callerId catId = getCategory db2 callerId catId ∧
    getCategory db1 callerId catId = .error ⟨404, "Categoria não encontrada"⟩ ∧
    getTransaction db1 callerId txId = getTransaction db2 callerId txId ∧
    getTransaction db1 callerId txId = .error ⟨404, "Transação não encontrada"⟩ := by
  have hcn1 : db1.categories.find? (fun c => c.id == catId && c.user_id == callerId) = none := by
    rw [List.find?_eq_none]
    intro c hc
    have := (List.all_eq_true.mp hc1) c hc
    simp at this ⊢
    tauto
  have hcn2 : db2.categories.find? (fun c => c.id == catId && c.user_id == callerId) = none := by
    rw [List.find?_eq_none]
    intro c hc
    have := (List.all_eq_true.mp hc2) c hc
    simp only [Bool.not_eq_true'] at this
    simp [this]
  have htn1 : db1.transactions.find? (fun t => t.id == txId && t.user_id == callerId) = none := by
    rw [List.find?_eq_none]
    intro t ht
    have := (List.all_eq_true.mp ht1) t ht
    simp at this ⊢
    tauto
  have htn2 : db2.transactions.find? (fun t => t.id == txId && t.user_id == callerId) = none := by
    rw [List.find?_eq_none]
    intro t ht
    have := (List.all_eq_true.mp ht2) t ht
    simp only [Bool.not_eq_true'] at this
    simp [this]
  have hgc1 : getCategory db1 callerId catId = .error ⟨404, "Categoria não encontrada"⟩ := by
    simp [getCategory, lookupIsStaff, h1, hs1, hcn1]
  have hgc2 : getCategory db2 callerId catId = .error ⟨404, "Categoria não encontrada"⟩ := by
    simp [getCategory, lookupIsStaff, h2, hs2, hcn2]
  have hgt1 : getTransaction db1 callerId txId = .error ⟨404, "Transação não encontrada"⟩ := by
    simp [getTransaction, lookupIsStaff, h1, hs1, htn1]
  have hgt2 : getTransaction db2 callerId txId = .error ⟨404, "Transação não encontrada"⟩ := by
    simp [getTransaction, lookupIsStaff, h2, hs2, htn2]
  exact ⟨hgc1.trans hgc2.symm, hgc1, hgt1.trans hgt2.symm, hgt1⟩

/-- A copy of the sample store in which `bob`'s category and transaction do
not exist at all (for the second run of C9). -/
def sampleDBAbsent : DB := ⟨[alice, bob, stella], [catFood], [txSalary, txGroceries]⟩

/-- Witness for C9: for non-staff `alice`, looking up `bob`'s category and
transaction in the sample store is observably identical to looking up ids
that exist in no row at all. -/
theorem C9_notfound_indistinguishable_witness :
    getCategory sampleDB "alice" "cat-salary" = getCategory sampleDBAbsent "alice" "cat-salary" ∧
    getCategory sampleDB "alice" "cat-salary" = .error ⟨404, "Categoria não encontrada"⟩ ∧
    getTransaction sampleDB "alice" "tx-bob" = getTransaction sampleDBAbsent "alice" "tx-bob" ∧
    getTransaction sampleDB "alice" "tx-bob" = .error ⟨404, "Transação não encontrada"⟩ :=
  C9_notfound_indistinguishable sampleDB sampleDBAbsent "alice" "cat-salary" "tx-bob"
    alice alice (by rfl) (by rfl) (by rfl) (by rfl)
    (by decide) (by decide) (by decide) (by decide)

-- ============ C10: is_staff frame property ============

/-- C10: `PUT /users` never changes any profile's `is_staff` — the handler
strips `is_staff` from the payload before applying the update, for every
caller (staff or not) and every body — and the only operation that writes
`is_staff`, the admin `change_staff` action, fails with 403 Forbidden when
the caller's own profile is not staff, leaving the store unchanged. -/
theorem C10_is_staff_frame (db dbp : DB) (callerId callerIdP targetUserId : String)
    (body : UserUpdateBody) (b : Bool) (caller : Profile)
    (hc : findProfile db callerId = some caller) (hns : caller.is_staff = false) :
    (usersPut dbp callerIdP body).1.users.map (fun u => (u.id, u.is_staff))
      = dbp.users.map (fun u => (u.id, u.is_staff)) ∧
    changeStaff db callerId targetUserId b = (db, .error ⟨403, "Forbidden (somente staff)"⟩) := by
  constructor
  · unfold usersPut
    cases hfp : findProfile dbp callerIdP with
    | none => rfl
    | some caller2 =>
      by_cases hperm : (!caller2.is_staff &&
          (match body.id with | some tid => !(tid == callerIdP) | none => false)) = true
      · simp [hperm]
      · rw [Bool.not_eq_true] at hperm
        simp only [hperm, Bool.false_eq_true, if_false]
        cases hfind : (dbp.users.map (fun u =>
            if u.id == (truthyStr body.id).getD callerIdP && u.id == callerIdP
            then applyProfileUpdate body u else u)).find?
            (fun u => u.id == (truthyStr body.id).getD callerIdP && u.id == callerIdP) <;>
          · simp only [List.map_map]
            refine List.map_congr_left ?_
            intro u _
            by_cases hcond : (u.id == (truthyStr body.id).getD callerIdP && u.id == callerIdP) = true <;>
              simp [Function.comp, hcond, applyProfileUpdate]
  · simp [changeStaff, hc, hns]

/-- Witness for C10: staff `stella` sending `is_staff: true` for `alice`
through `PUT /users` leaves every profile's `is_staff` unchanged, and
non-staff `alice` invoking `change_staff` is rejected with 403. -/
theorem C10_is_staff_frame_witness :
    (usersPut sampleDB "stella" ⟨some "alice", none, none, some true⟩).1.users.map
        (fun u => (u.id, u.is_staff))
      = sampleDB.users.map (fun u => (u.id, u.is_staff)) ∧
    changeStaff sampleDB "alice" "bob" true
      = (sampleDB, .error ⟨403, "Forbidden (somente staff)"⟩) :=
  C10_is_staff_frame sampleDB sampleDB "alice" "stella" "bob"
    ⟨some "alice", none, none, some true⟩ true alice (by rfl) (by rfl)

-- ============ C1: owner scope of the list reads ============

/-- The row list of a category-list response (empty on error). -/
def catRows : Except HttpError (List CategoryWithUser) → List CategoryWithUser
  | .ok l => l
  | .error _ => []

/-- The row list of a transaction-list response (empty on error). -/
def txRows : Except HttpError (List TransactionWithUser) → List TransactionWithUser
  | .ok l => l
  | .error _ => []

/-- C1: a non-staff caller listing categories or transactions (under any
combination of filters and pagination) only ever receives rows whose owning
user id equals the caller's id. -/
theorem C1_owner_scope (db : DB) (callerId : String) (p : ListParams) (caller : Profile)
    (hc : findProfile db callerId = some caller) (hns : caller.is_staff = false) :
    (catRows (categoriesHandler db callerId)).all
        (fun cw => cw.category.user_id == callerId) = true ∧
    (txRows (transactionsHandler db callerId p)).all
        (fun tw => tw.transaction.user_id == callerId) = true := by
  constructor
  · have hcats : categoriesHandler db callerId
        = .ok ((sortBy catLe (db.categories.filter (fun c => c.user_id == callerId))).map
            (fun c => ⟨c, some caller⟩)) := by
      simp [categoriesHandler, lookupIsStaff, hc, hns]
    rw [hcats]
    simp only [catRows, List.all_eq_true]
    intro cw hcw
    rw [List.mem_map] at hcw
    obtain ⟨c, hcm, rfl⟩ := hcw
    exact (List.mem_filter.mp (mem_sortBy.mp hcm)).2
  · have htxs : transactionsHandler db callerId p
        = .ok ((rangeWindow p.offset p.limit (sortBy txLe
            ((db.transactions.filter (fun t => t.user_id == callerId)).filter
              (matchesFilters p)))).map (fun t => ⟨t, some caller⟩)) := by
      simp [transactionsHandler, lookupIsStaff, hc, hns]
    rw [htxs]
    simp only [txRows, List.all_eq_true]
    intro tw htw
    rw [List.mem_map] at htw
    obtain ⟨t, htm, rfl⟩ := htw
    have h1 := mem_sortBy.mp (mem_rangeWindow htm)
    exact (List.mem_filter.mp (List.mem_filter.mp h1).1).2

/-- Witness for C1 at the sample store: non-staff `alice` sees only her own
rows. -/
theorem C1_owner_scope_witness :
    (catRows (categoriesHandler sampleDB "alice")).all
        (fun cw => cw.category.user_id == "alice") = true ∧
    (txRows (transactionsHandler sampleDB "alice" defaultParams)).all
        (fun tw => tw.transaction.user_id == "alice") = true :=
  C1_owner_scope sampleDB "alice" defaultParams alice (by rfl) (by rfl)

-- ============ C4: staff scope of the list reads ============

theorem length_orderedInsert {le : α → α → Bool} (a : α) (l : List α) :
    (orderedInsert le a l).length = l.length + 1 := by
  induction l with
  | nil => rfl
  | cons b t ih =>
    unfold orderedInsert
    by_cases h : le a b <;> simp [h, ih]

theorem length_sortBy {le : α → α → Bool} (l : List α) :
    (sortBy le l).length = l.length := by
  induction l with
  | nil => rfl
  | cons a t ih => simp [sortBy, length_orderedInsert, ih]

/-- The `users.find(...)` over the profiles fetched with
`in('id', userIds)` agrees with a lookup over the whole users table, for
every row whose owner id fed the `in` list. -/
theorem fetched_find_eq (users : List Profile) (rows : List α) (uid : α → String)
    (r : α) (hr : r ∈ rows) :
    (users.filter (fun u => (rows.map uid).contains u.id)).find? (fun u => u.id == uid r)
      = users.find? (fun u => u.id == uid r) := by
  rw [find?_filter]
  apply find?_congr
  intro u _
  by_cases h : (u.id == uid r) = true
  · have hm : u.id ∈ rows.map uid := by
      rw [eq_of_beq h]
      exact List.mem_map_of_mem uid hr
    have hcont : (rows.map uid).contains u.id = true :=
      List.elem_eq_true_of_mem hm
    rw [hcont, h]
    rfl
  · rw [eq_false_of_ne_true h]
    rw [Bool.and_false]

/-- C4: for a staff caller, the category list returns *all* users' categories
(in query order) and the transaction list with default parameters returns all
users' transactions whenever they fit the default page of 50 — in both cases
each row annotated with `user:` looked up by the row's owner id — and, under
the schema's foreign-key integrity (every row's owner has a profile), every
returned annotation is the owning profile's summary (its `id` matches the
row's `user_id`). -/
theorem C4_staff_scope (db : DB) (callerId : String) (caller : Profile)
    (hc : findProfile db callerId = some caller) (hst : caller.is_staff = true)
    (hlen : db.transactions.length ≤ 50)
    (hFKc : db.categories.all (fun c => (findProfile db c.user_id).isSome) = true)
    (hFKt : db.transactions.all (fun t => (findProfile db t.user_id).isSome) = true) :
    categoriesHandler db callerId
      = .ok ((sortBy catLe db.categories).map (fun c => ⟨c, findProfile db c.user_id⟩)) ∧
    transactionsHandler db callerId defaultParams
      = .ok ((sortBy txLe db.transactions).map (fun t => ⟨t, findProfile db t.user_id⟩)) ∧
    (catRows (categoriesHandler db callerId)).all
        (fun cw => match cw.user with
          | some u => u.id == cw.category.user_id
          | none => false) = true ∧
    (txRows (transactionsHandler db callerId defaultParams)).all
        (fun tw => match tw.user with
          | some u => u.id == tw.transaction.user_id
          | none => false) = true := by
  have hcats : categoriesHandler db callerId
      = .ok ((sortBy catLe db.categories).map (fun c => ⟨c, findProfile db c.user_id⟩)) := by
    simp only [categoriesHandler, lookupIsStaff, hc, hst, if_true]
    congr 1
    apply List.map_congr_left
    intro c hcm
    rw [fetched_find_eq db.users (sortBy catLe db.categories) (·.user_id) c hcm]
    rfl
  have hpage : rangeWindow defaultParams.offset defaultParams.limit
      (sortBy txLe db.transactions) = sortBy txLe db.transactions := by
    unfold rangeWindow defaultParams
    rw [List.drop_zero]
    apply List.take_of_length_le
    rw [length_sortBy]
    exact hlen
  have hnofilter : ∀ l : List Transaction, l.filter (matchesFilters defaultParams) = l := by
    intro l
    apply List.filter_eq_self.mpr
    intro t _
    rfl
  have htxs : transactionsHandler db callerId defaultParams
      = .ok ((sortBy txLe db.transactions).map (fun t => ⟨t, findProfile db t.user_id⟩)) := by
    simp only [transactionsHandler, lookupIsStaff, hc, hst, if_true, hpage, hnofilter]
    congr 1
    apply List.map_congr_left
    intro t htm
    rw [fetched_find_eq db.users (sortBy txLe db.transactions) (·.user_id) t htm]
    rfl
  refine ⟨hcats, htxs, ?_, ?_⟩
  · rw [hcats]
    simp only [catRows, List.all_eq_true]
    intro cw hcw
    rw [List.mem_map] at hcw
    obtain ⟨c, hcm, rfl⟩ := hcw
    have hs : (findProfile db c.user_id).isSome = true :=
      (List.all_eq_true.mp hFKc) c (mem_sortBy.mp hcm)
    cases hf : findProfile db c.user_id with
    | none => rw [hf] at hs; simp at hs
    | some u =>
      have := List.find?_some hf
      simpa [hf] using this
  · rw [htxs]
    simp only [txRows, List.all_eq_true]
    intro tw htw
    rw [List.mem_map] at htw
    obtain ⟨t, htm, rfl⟩ := htw
    have hs : (findProfile db t.user_id).isSome = true :=
      (List.all_eq_true.mp hFKt) t (mem_sortBy.mp htm)
    cases hf : findProfile db t.user_id with
    | none => rw [hf] at hs; simp at hs
    | some u =>
      have := List.find?_some hf
      simpa [hf] using this

/-- Witness for C4: staff `stella` listing categories at the sample store
sees both `alice`'s and `bob`'s categories with their owner summaries. -/
theorem C4_staff_scope_witness :
    categoriesHandler sampleDB "stella"
      = .ok ((sortBy catLe sampleDB.categories).map
          (fun c => ⟨c, findProfile sampleDB c.user_id⟩)) :=
  (C4_staff_scope sampleDB "stella" stella (by rfl) (by rfl) (by decide)
    (by decide) (by decide)).1

-- ============ C8: filters and pagination of the transaction list ============

/-- Modelled from the claim's words, for comparison with the code: the
caller-visible transaction set (all rows for staff, the caller's own rows
otherwise). -/
def specVisibleTransactions (db : DB) (callerId : String) (isStaff : Bool) :
    List Transaction :=
  if isStaff then db.transactions
  else db.transactions.filter (fun t => t.user_id == callerId)

/-- Modelled from the claim's words, for comparison with the code: the rows
of the visible set satisfying all given filters, in query order, windowed by
`offset`/`limit` — i.e. filters applied *before* the pagination window. -/
def specListTransactions (db : DB) (callerId : String) (isStaff : Bool)
    (p : ListParams) : List Transaction :=
  rangeWindow p.offset p.limit
    (sortBy txLe ((specVisibleTransactions db callerId isStaff).filter (matchesFilters p)))

/-- C8 (amended): for a non-staff caller the claim holds as stated — the
handler returns exactly the caller-visible rows satisfying all filters
(dates inclusive), windowed by `offset`/`limit` after filtering — and every
returned row is the caller's and passes every filter.  For a staff caller
the window is taken first over the full ordered transaction set and the
filters are applied only inside that page (so every returned row still
passes the filters, but filtered rows outside the page are lost: see the
counterexample). -/
theorem C8_list_filters_pagination (db : DB) (callerId : String) (p : ListParams)
    (caller : Profile) (hc : findProfile db callerId = some caller) :
    (caller.is_staff = false →
      transactionsHandler db callerId p
        = .ok ((specListTransactions db callerId false p).map (fun t => ⟨t, some caller⟩)) ∧
      (txRows (transactionsHandler db callerId p)).all
        (fun tw => tw.transaction.user_id == callerId && matchesFilters p tw.transaction)
        = true) ∧
    (caller.is_staff = true →
      transactionsHandler db callerId p
        = .ok (((rangeWindow p.offset p.limit (sortBy txLe db.transactions)).filter
            (matchesFilters p)).map
              (fun t => ⟨t, (db.users.filter (fun u =>
                (((rangeWindow p.offset p.limit (sortBy txLe db.transactions)).filter
                  (matchesFilters p)).map (·.user_id)).contains u.id)).find?
                    (fun u => u.id == t.user_id)⟩)) ∧
      (txRows (transactionsHandler db callerId p)).all
        (fun tw => matchesFilters p tw.transaction) = true) := by
  constructor
  · intro hns
    have heq : transactionsHandler db callerId p
        = .ok ((specListTransactions db callerId false p).map (fun t => ⟨t, some caller⟩)) := by
      simp [transactionsHandler, lookupIsStaff, hc, hns,
        specListTransactions, specVisibleTransactions]
    refine ⟨heq, ?_⟩
    rw [heq]
    simp only [txRows, List.all_eq_true]
    intro tw htw
    rw [List.mem_map] at htw
    obtain ⟨t, htm, rfl⟩ := htw
    have h1 := mem_sortBy.mp (mem_rangeWindow htm)
    simp only [specVisibleTransactions, Bool.false_eq_true, if_false] at h1
    have h2 := List.mem_filter.mp h1
    have h3 := List.mem_filter.mp h2.1
    rw [Bool.and_eq_true]
    exact ⟨h3.2, h2.2⟩
  · intro hst
    have heq : transactionsHandler db callerId p
        = .ok (((rangeWindow p.offset p.limit (sortBy txLe db.transactions)).filter
            (matchesFilters p)).map
              (fun t => ⟨t, (db.users.filter (fun u =>
                (((rangeWindow p.offset p.limit (sortBy txLe db.transactions)).filter
                  (matchesFilters p)).map (·.user_id)).contains u.id)).find?
                    (fun u => u.id == t.user_id)⟩)) := by
      simp [transactionsHandler, lookupIsStaff, hc, hst]
    refine ⟨heq, ?_⟩
    rw [heq]
    simp only [txRows, List.all_eq_true]
    intro tw htw
    rw [List.mem_map] at htw
    obtain ⟨t, htm, rfl⟩ := htw
    exact (List.mem_filter.mp htm).2

/-- Witness for C8's amended theorem: non-staff `alice` listing with an
inclusive date window `[2024-03-02, 2024-03-02]` gets exactly her one
in-range row. -/
theorem C8_list_filters_pagination_witness :
    transactionsHandler sampleDB "alice"
        ⟨some "2024-03-02", some "2024-03-02", none, none, none, 50, 0⟩
      = .ok ((specListTransactions sampleDB "alice" false
          ⟨some "2024-03-02", some "2024-03-02", none, none, none, 50, 0⟩).map
            (fun t => ⟨t, some alice⟩)) :=
  ((C8_list_filters_pagination sampleDB "alice"
      ⟨some "2024-03-02", some "2024-03-02", none, none, none, 50, 0⟩
      alice (by rfl)).1 (by rfl)).1

/-- Counterexample for C8 as stated: for staff `stella` with filter
`type=income` and `limit=1`, the code paginates the unfiltered ordered set
first (fetching only the newest row, an expense) and then filters it away,
returning no rows — while filtering the visible set before the window, as
the claim states, would return the income row. -/
theorem C8_list_filters_pagination_counterexample :
    findProfile sampleDB "stella" = some stella ∧
    stella.is_staff = true ∧
    transactionsHandler sampleDB "stella" ⟨none, none, some "income", none, none, 1, 0⟩
      = .ok [] ∧
    specListTransactions sampleDB "stella" true ⟨none, none, some "income", none, none, 1, 0⟩
      = [txSalary] ∧
    (txRows (transactionsHandler sampleDB "stella"
        ⟨none, none, some "income", none, none, 1, 0⟩)).map (·.transaction)
      ≠ specListTransactions sampleDB "stella" true ⟨none, none, some "income", none, none, 1, 0⟩ :=
  ⟨by rfl, by rfl, by rfl, by rfl, by decide⟩

end SupabaseBackend
